import Mathlib

/-!
Shallow embedding of the SideScore client, src/static/app.js.  Each
definition mirrors one function of that file; line numbers in doc comments
refer to it.  Host primitives whose behaviour the repository does not define
(the Date constructor, locale time formatting, JSON.parse) enter as explicit
parameters or are modelled by their ECMA-specified result.  The stale
sibling revision src/unnamed/part_000 is nearly identical; where it
diverges, app.js is taken as the authority.
-/

namespace SideScore

/-- The four fixed league ids (app.js lines 1 to 13; loop keys at line 93). -/
inductive LeagueId where
  | pl
  | ch
  | l1
  | l2
deriving DecidableEq, Repr

/-- The leagueNames lookup table (app.js lines 8 to 13). -/
def leagueNames : LeagueId → String
  | .pl => "Premier League"
  | .ch => "Championship"
  | .l1 => "League One"
  | .l2 => "League Two"

/-- The string form of a league id, as used by the data-filter attributes. -/
def leagueIdStr : LeagueId → String
  | .pl => "pl"
  | .ch => "ch"
  | .l1 => "l1"
  | .l2 => "l2"

/-- The LEAGUES table (app.js lines 1 to 6): fixed ids with display names, in
fixed order. -/
def LEAGUES : List (LeagueId × String) :=
  [(.pl, "Premier League"), (.ch, "Championship"), (.l1, "League One"), (.l2, "League Two")]

/-- One raw feed record with its optional fields, as read by toMatchModel
(app.js lines 49 to 74).  Fields JavaScript may find undefined are Options;
a present empty string is kept distinct from an absent field because both
are falsy but templates print them differently. -/
structure RawMatch where
  id : String
  home : Option String := none
  away : Option String := none
  homeTeam : Option String := none
  homeName : Option String := none
  awayTeam : Option String := none
  awayName : Option String := none
  homeGoals : Option Int := none
  awayGoals : Option Int := none
  isLive : Bool := false
  minute : Option String := none
  kickoffISO : Option String := none
deriving DecidableEq, Repr

/-- The two statuses toMatchModel produces (app.js line 57). -/
inductive MatchStatus where
  | LIVE
  | UPCOMING
deriving DecidableEq, Repr

/-- Host date primitives: parse models the Date constructor on a string
(none when the result is an Invalid Date), fmt models
Date.prototype.toLocaleTimeString on a valid time value. -/
structure DateEnv where
  parse : String → Option Int
  fmt : Int → String

/-- isoToLocalKickoff (app.js lines 42 to 47).  A falsy argument returns the
empty string.  Otherwise new Date(iso) is taken and formatted:
toLocaleTimeString on an Invalid Date returns the string Invalid Date
(ECMA-402), else the locale-formatted time. -/
def isoToLocalKickoff (env : DateEnv) (iso : Option String) : String :=
  match iso with
  | none => ""
  | some s =>
    if s = "" then ""
    else
      match env.parse s with
      | none => "Invalid Date"
      | some t => env.fmt t

/-- JavaScript a || rest for an optional string a: a when truthy, else rest. -/
def jsOrStr (a : Option String) (rest : String) : String :=
  match a with
  | none => rest
  | some s => if s = "" then rest else s

/-- The canonical match model built by toMatchModel (app.js lines 62 to 73).
The minute field carries the meta text exactly as the source stores it;
leagueName is stamped later by the merger (line 102). -/
structure Match where
  id : String
  home : Option String
  away : Option String
  homeTeam : String
  awayTeam : String
  homeGoals : Int
  awayGoals : Int
  status : MatchStatus
  minute : String
  kickoff : String
  leagueName : String
deriving DecidableEq, Repr

/-- toMatchModel (app.js lines 49 to 74). -/
def toMatchModel (env : DateEnv) (f : RawMatch) : Match :=
  { id := f.id
    home := f.home
    away := f.away
    homeTeam := (jsOrStr f.homeTeam (jsOrStr f.homeName (jsOrStr f.home ""))).trim
    awayTeam := (jsOrStr f.awayTeam (jsOrStr f.awayName (jsOrStr f.away ""))).trim
    homeGoals := f.homeGoals.getD 0
    awayGoals := f.awayGoals.getD 0
    status := if f.isLive then .LIVE else .UPCOMING
    minute :=
      if f.isLive then jsOrStr f.minute ""
      else if isoToLocalKickoff env f.kickoffISO = "" then ""
      else "KO " ++ isoToLocalKickoff env f.kickoffISO
    kickoff := isoToLocalKickoff env f.kickoffISO
    leagueName := "" }

/-- A live or upcoming field of a league bucket: absent, present but not an
array, or an array of raw records. -/
inductive BucketField where
  | absent
  | nonArray
  | arr (xs : List RawMatch)
deriving DecidableEq, Repr

/-- One league bucket of the feed response: missing (absent key or falsy
value, defaulted at app.js line 94), a truthy non-object (whose field reads
give undefined), or an object with its two fields. -/
inductive LeagueBucket where
  | missing
  | nonObject
  | obj (live : BucketField) (upcoming : BucketField)
deriving DecidableEq, Repr

/-- The live field seen after the default of app.js line 94. -/
def bucketLive : LeagueBucket → BucketField
  | .missing => .arr []
  | .nonObject => .absent
  | .obj l _ => l

/-- The upcoming field seen after the default of app.js line 94. -/
def bucketUpcoming : LeagueBucket → BucketField
  | .missing => .arr []
  | .nonObject => .absent
  | .obj _ u => u

/-- Truthiness of Array.isArray(v) && v.length (app.js line 97). -/
def isNonEmptyArray : BucketField → Bool
  | .arr xs => decide (xs.length ≠ 0)
  | _ => false

def arrOf : BucketField → List RawMatch
  | .arr xs => xs
  | _ => []

/-- The per-league list selection of app.js lines 96 to 98. -/
def chooseList (b : LeagueBucket) : List RawMatch :=
  if isNonEmptyArray (bucketLive b) then arrOf (bucketLive b)
  else
    match bucketUpcoming b with
    | .arr ys => ys
    | _ => []

structure FeedLeagues where
  pl : LeagueBucket
  ch : LeagueBucket
  l1 : LeagueBucket
  l2 : LeagueBucket
deriving DecidableEq, Repr

def FeedLeagues.get : FeedLeagues → LeagueId → LeagueBucket
  | L, .pl => L.pl
  | L, .ch => L.ch
  | L, .l1 => L.l1
  | L, .l2 => L.l2

/-- The leagues object of the response: a body without a usable leagues
object makes every bucket missing (app.js line 89). -/
def leaguesGet (d : Option FeedLeagues) (k : LeagueId) : LeagueBucket :=
  match d with
  | none => .missing
  | some L => L.get k

/-- Normalization plus the leagueName stamp of app.js lines 100 to 104. -/
def normalizeFor (env : DateEnv) (k : LeagueId) (f : RawMatch) : Match :=
  { toMatchModel env f with leagueName := leagueNames k }

/-- The shared snapshot LIVE_DATA (app.js lines 15 to 20). -/
structure Snapshot where
  pl : List Match
  ch : List Match
  l1 : List Match
  l2 : List Match
deriving DecidableEq, Repr

def Snapshot.get : Snapshot → LeagueId → List Match
  | s, .pl => s.pl
  | s, .ch => s.ch
  | s, .l1 => s.l1
  | s, .l2 => s.l2

/-- The snapshot merger: the loop of app.js lines 90 to 105 building next. -/
def mergeScores (env : DateEnv) (d : Option FeedLeagues) : Snapshot :=
  { pl := (chooseList (leaguesGet d .pl)).map (normalizeFor env .pl)
    ch := (chooseList (leaguesGet d .ch)).map (normalizeFor env .ch)
    l1 := (chooseList (leaguesGet d .l1)).map (normalizeFor env .l1)
    l2 := (chooseList (leaguesGet d .l2)).map (normalizeFor env .l2) }

/-- Modelled from the claim wording of C1, for comparison with chooseList:
the live array when it is a non-empty array, otherwise the upcoming array
when present, otherwise the empty list. -/
def claimChoice (b : LeagueBucket) : List RawMatch :=
  match bucketLive b with
  | .arr (x :: xs) => x :: xs
  | _ =>
    match bucketUpcoming b with
    | .arr ys => ys
    | _ => []

def isArrayField : BucketField → Bool
  | .arr _ => true
  | _ => false

/-- A bucket that offers no usable array at all: an absent key or falsy
value, a truthy non-object, or an object whose live and upcoming fields are
both non-arrays (claim C6). -/
def malformedBucket : LeagueBucket → Bool
  | .missing => true
  | .nonObject => true
  | .obj l u => !isArrayField l && !isArrayField u

/-- getAbbr (app.js lines 131 to 137). -/
def getAbbr (teamName : String) : String :=
  let parts := (teamName.trim.split Char.isWhitespace).filter (fun p => decide (p ≠ ""))
  if parts.length = 1 then ((parts.headD "").take 3).toUpper
  else (String.join ((parts.take 3).map (fun p => p.take 1))).toUpper

/-- allMatches (app.js lines 159 to 163): flatten the snapshot in key
insertion order, tagging each match with its league id. -/
def allMatches (s : Snapshot) : List (LeagueId × Match) :=
  [(LeagueId.pl, s.pl), (LeagueId.ch, s.ch), (LeagueId.l1, s.l1), (LeagueId.l2, s.l2)].flatMap
    (fun e => e.2.map (fun m => (e.1, m)))

/-- findMatchById (app.js lines 165 to 167). -/
def findMatchById (s : Snapshot) (id : String) : Option (LeagueId × Match) :=
  (allMatches s).find? (fun p => decide (p.2.id = id))

/-- loadLeagueFilter (app.js lines 170 to 172): the raw stored value when it
is truthy, else the string all. -/
def loadLeagueFilter (raw : Option String) : String :=
  match raw with
  | none => "all"
  | some s => if s = "" then "all" else s

/-- formatScoreline (app.js lines 321 to 324). -/
def formatScoreline (m : Match) : String :=
  if m.status = .LIVE then toString m.homeGoals ++ " : " ++ toString m.awayGoals else "vs"

/-- formatRightMeta (app.js lines 326 to 330); the source has a third branch
returning the empty string for a status toMatchModel never produces. -/
def formatRightMeta (m : Match) : String :=
  match m.status with
  | .LIVE => m.minute ++ "\u0027"
  | .UPCOMING => "KO " ++ m.kickoff

/-- A template interpolation of a || b for a string a and a possibly absent
b: a when truthy, else b printed the way a template prints it (an undefined
value becomes the text undefined). -/
def orFallbackStr (a : String) (b : Option String) : String :=
  if a = "" then
    match b with
    | none => "undefined"
    | some s => s
  else a

/-- One pill of the followed list (app.js lines 225 to 237).  Markup
whitespace is normalized throughout the render model; the claims concern
content identity, not layout. -/
def followedPill (p : LeagueId × Match) : String :=
  "<div class=\"pill\"><div><b>" ++
    orFallbackStr p.2.homeTeam p.2.home ++ " " ++ formatScoreline p.2 ++ " " ++
    orFallbackStr p.2.awayTeam p.2.away ++
  "</b><div class=\"tiny\">" ++ p.2.leagueName ++ " • " ++ formatRightMeta p.2 ++
  "</div></div><button class=\"pill-x pill-x-danger\" data-unfollow=\"" ++ p.2.id ++
  "\" title=\"Unfollow\">×</button></div>"

/-- The resolution step shared by both followed surfaces (app.js lines 218
and 458): map each followed id through findMatchById and keep the hits. -/
def resolveFollowed (s : Snapshot) (followed : List String) : List (LeagueId × Match) :=
  (followed.map (findMatchById s)).reduceOption

/-- renderFollowed (app.js lines 217 to 246), as the innerHTML it assigns. -/
def renderFollowedHTML (s : Snapshot) (followed : List String) : String :=
  if (resolveFollowed s followed).isEmpty then
    "<div class=\"empty\">No followed matches. Tap “Follow” on a match to pin it.</div>"
  else String.join ((resolveFollowed s followed).map followedPill)

/-- renderMatchRow (app.js lines 291 to 319); the lg parameter of the source
is unused there and omitted here. -/
def renderMatchRow (m : Match) (followed : List String) : String :=
  "<div class=\"match\"><div class=\"left\"><div class=\"row\"><span class=\"team\">" ++
  orFallbackStr m.homeTeam m.home ++ "</span><span class=\"score\">" ++ formatScoreline m ++
  "</span><span class=\"team\">" ++ orFallbackStr m.awayTeam m.away ++
  "</span></div><div class=\"meta\">" ++
  (if m.status = .LIVE then "<span class=\"status-live\">LIVE</span> • " ++ m.minute else m.minute) ++
  "</div></div><div class=\"controls\">" ++
  (if m.id ∈ followed then
    "<button class=\"smallbtn smallbtn-danger\" data-unfollow=\"" ++ m.id ++ "\">Unfollow</button>"
   else "<button class=\"smallbtn\" data-follow=\"" ++ m.id ++ "\">Follow</button>") ++
  "</div></div>"

/-- The league list selection of app.js line 254. -/
def leaguesToShow (filter : String) : List (LeagueId × String) :=
  if filter = "all" then LEAGUES
  else LEAGUES.filter (fun lg => decide (leagueIdStr lg.1 = filter))

/-- One league section (app.js lines 256 to 279). -/
def leagueSectionHTML (s : Snapshot) (followed : List String) (lg : LeagueId × String) : String :=
  let ms := s.get lg.1
  let live := ms.filter (fun m => decide (m.status = .LIVE))
  let upcoming := ms.filter (fun m => decide (m.status = .UPCOMING))
  let badge :=
    if live.length ≠ 0 then toString live.length ++ " live"
    else if upcoming.length ≠ 0 then toString upcoming.length ++ " upcoming"
    else "No live games"
  let listToShow := if live.length ≠ 0 then live else if upcoming.length ≠ 0 then upcoming else []
  let body :=
    if listToShow.length ≠ 0 then
      "<div class=\"matches\">" ++ String.join (listToShow.map (fun m => renderMatchRow m followed)) ++ "</div>"
    else "<div class=\"matches\"><div class=\"empty\">No live games today</div></div>"
  "<section class=\"league league--" ++ leagueIdStr lg.1 ++ "\"><div class=\"league-head\"><h3>" ++
    lg.2 ++ "</h3><div class=\"badge\">" ++ badge ++ "</div></div>" ++ body ++ "</section>"

/-- renderLeagues (app.js lines 253 to 288), as the innerHTML of the leagues
element. -/
def renderLeaguesHTML (s : Snapshot) (followed : List String) (filter : String) : String :=
  String.join ((leaguesToShow filter).map (leagueSectionHTML s followed))

/-- renderQuickActions (app.js lines 211 to 214), as the button label. -/
def renderQuickLabel (s : Snapshot) : String :=
  let liveCount := ((allMatches s).filter (fun p => decide (p.2.status = .LIVE))).length
  if liveCount > 0 then "Follow all live (" ++ toString liveCount ++ ")" else "Follow all live"

/-- One row of the pinned window (app.js lines 465 to 469).  getAbbr applied
to an undefined team name throws a TypeError in the source; that is
modelled as none, which leaves the window content unassigned. -/
def pipRowOpt (p : LeagueId × Match) : Option String :=
  match p.2.home, p.2.away with
  | some h, some a =>
    some ("<div class=\"row\"><div class=\"left\">" ++ getAbbr h ++ " " ++ formatScoreline p.2 ++
      " " ++ getAbbr a ++ "</div><div class=\"right\">" ++
      (if p.2.status = .LIVE then p.2.minute ++ "\u0027" else "KO " ++ p.2.kickoff) ++
      "</div></div>")
  | _, _ => none

/-- The row list of the pinned window: all rows, or none when building any
row throws (app.js lines 465 to 469). -/
def pipRows (ms : List (LeagueId × Match)) : Option (List String) :=
  ms.mapM pipRowOpt

/-- renderPinnedWindow (app.js lines 453 to 470): when the window is open
the list content is recomputed from the same followed resolution; when it
is closed, or when building a row throws, the previous content stays. -/
def pipContent (s : Snapshot) (followed : List String) (isOpen : Bool) (old : String) : String :=
  if isOpen then
    if (resolveFollowed s followed).isEmpty then "<div class=\"empty\">No followed matches</div>"
    else
      match pipRows (resolveFollowed s followed) with
      | none => old
      | some rows => String.join rows
  else old

/-- The painted surfaces: the highlighted filter value, the quick-action
button label, the two primary innerHTML regions, and the pinned list. -/
structure Dom where
  segActive : String
  btnLabel : String
  followedHTML : String
  leaguesHTML : String
  pipList : String
deriving DecidableEq, Repr

/-- The mutable client state: the shared snapshot LIVE_DATA, the two
persisted store cells, the pinned-window flag, the painted surfaces, and a
count of render invocations.  The followed cell holds the persisted id
array (spec section 6: a JSON array of strings); JSON round-trips such
arrays, so saveFollowedSet and loadFollowedSet are cell access here, while
the raw decoding path is modelled separately by loadFollowedSet below. -/
structure AppState where
  liveData : Snapshot
  followedCell : List String
  filterCell : Option String
  pipOpen : Bool
  dom : Dom
  renderCount : Nat
deriving DecidableEq, Repr

/-- render (app.js lines 188 to 199): read the stores, repaint every
surface, leave the stores and the snapshot untouched. -/
def render (st : AppState) : AppState :=
  { st with
    dom :=
      { segActive := loadLeagueFilter st.filterCell
        btnLabel := renderQuickLabel st.liveData
        followedHTML := renderFollowedHTML st.liveData st.followedCell
        leaguesHTML := renderLeaguesHTML st.liveData st.followedCell (loadLeagueFilter st.filterCell)
        pipList := pipContent st.liveData st.followedCell st.pipOpen st.dom.pipList }
    renderCount := st.renderCount + 1 }

/-- Set.prototype.add: append when the id is new, keep insertion order. -/
def jsSetAdd (s : List String) (x : String) : List String :=
  if x ∈ s then s else s ++ [x]

/-- Set.prototype.delete: remove the id when present. -/
def jsSetDelete (s : List String) (x : String) : List String :=
  s.filter (fun y => decide (y ≠ x))

/-- toggleFollow (app.js lines 333 to 339): load, mutate, save, render. -/
def toggleFollow (matchId : String) (shouldFollow : Bool) (st : AppState) : AppState :=
  render { st with
    followedCell :=
      if shouldFollow then jsSetAdd st.followedCell matchId
      else jsSetDelete st.followedCell matchId }

/-- One observed outcome of the network fetch: a transport rejection, or a
response carrying its HTTP status and its parsed JSON body (error when
res.json() rejects; the payload is the usable leagues object, if any). -/
inductive FetchOutcome where
  | transportError (msg : String)
  | response (status : Nat) (body : Except String (Option FeedLeagues))

/-- res.ok: the status lies in the 2xx range. -/
def resOk (status : Nat) : Bool := decide (200 ≤ status ∧ status ≤ 299)

/-- fetchScores (app.js lines 78 to 112): throw on transport failure, on a
non-ok status (line 83) and on a body that fails to parse; otherwise
install the merged snapshot and render. -/
def fetchScores (env : DateEnv) (o : FetchOutcome) (st : AppState) : Except String AppState :=
  match o with
  | .transportError msg => .error msg
  | .response status body =>
    if resOk status then
      match body with
      | .error msg => .error msg
      | .ok d => .ok (render { st with liveData := mergeScores env d })
    else .error ("API error " ++ toString status)

/-- One poll cycle: the run closure of startPolling (app.js lines 114 to
128) catches any fetch error, reports it via console and toast, and leaves
the state as it was. -/
def pollOnce (env : DateEnv) (o : FetchOutcome) (st : AppState) : AppState :=
  match fetchScores env o st with
  | .error _ => st
  | .ok st2 => st2

/-- A parsed JSON value, as far as loadFollowedSet inspects one.  Numbers
are kept coarse; composite values returned by JSON.parse are fresh
references, so Set equality never identifies two of them. -/
inductive Json where
  | null
  | boolVal (b : Bool)
  | numVal (n : Int)
  | strVal (s : String)
  | arrVal (xs : List Json)
  | objVal (kvs : List (String × Json))

/-- SameValueZero on freshly parsed values: primitives by value, composite
values (fresh references) never equal. -/
def jsSameValue : Json → Json → Bool
  | .null, .null => true
  | .boolVal a, .boolVal b => a == b
  | .numVal a, .numVal b => a == b
  | .strVal a, .strVal b => a == b
  | _, _ => false

/-- Set construction keeps the first occurrence of each value. -/
def dedupFirst : List Json → List Json
  | [] => []
  | x :: xs => x :: dedupFirst (xs.filter (fun y => !jsSameValue x y))
termination_by l => l.length
decreasing_by
  simp only [List.length_cons]
  exact Nat.lt_succ_of_le (List.length_filter_le _ _)

/-- What new Set(v) iterates: null is treated like undefined and gives the
empty set, arrays give their elements, strings their code points; any other
value makes the constructor throw. -/
def jsSetElems : Json → Option (List Json)
  | .null => some []
  | .arrVal xs => some xs
  | .strVal s => some (s.toList.map (fun c => Json.strVal c.toString))
  | _ => none

/-- loadFollowedSet (app.js lines 140 to 148).  The stored raw value is
absent or a string; parse is the host JSON.parse (error when it throws).  A
falsy raw gives the empty array; a throwing parse, or a parse result the
Set constructor cannot iterate, is caught and gives the empty set. -/
def loadFollowedSet (parse : String → Except String Json) (raw : Option String) : List Json :=
  match raw with
  | none => []
  | some s =>
    if s = "" then []
    else
      match parse s with
      | .error _ => []
      | .ok v =>
        match jsSetElems v with
        | none => []
        | some xs => dedupFirst xs

/-- Equality of followed sets as sets of ids. -/
def sameElems (a b : List String) : Prop := ∀ x, x ∈ a ↔ x ∈ b

/-! Concrete values used by witnesses and counterexamples. -/

def emptyDom : Dom :=
  { segActive := "", btnLabel := "", followedHTML := "", leaguesHTML := "", pipList := "" }

def emptySnap : Snapshot := { pl := [], ch := [], l1 := [], l2 := [] }

def baseState : AppState :=
  { liveData := emptySnap, followedCell := [], filterCell := none, pipOpen := false,
    dom := emptyDom, renderCount := 0 }

/-- A date environment in which no string parses. -/
def dEnvNone : DateEnv := { parse := fun _ => none, fmt := fun _ => "" }

/-- A date environment in which exactly the string k parses, formatting as
19:30. -/
def dEnvK : DateEnv :=
  { parse := fun s => if s = "k" then some 0 else none, fmt := fun _ => "19:30" }

/-- An upcoming raw record with a present but unparseable kickoff timestamp. -/
def badKickoffRec : RawMatch := { id := "m1", kickoffISO := some "not-a-date" }

/-- An upcoming raw record whose kickoff timestamp parses under dEnvK. -/
def goodKickoffRec : RawMatch := { id := "m2", kickoffISO := some "k" }

/-- A feed whose pl bucket is a truthy non-object and whose ch bucket has
one upcoming record. -/
def feedMixed : FeedLeagues :=
  { pl := .nonObject
    ch := .obj .absent (.arr [{ id := "c1" }])
    l1 := .obj (.arr []) (.arr [])
    l2 := .missing }

def followedM9State : AppState := { baseState with followedCell := ["m9"] }

def followedM1State : AppState := { baseState with followedCell := ["m1"] }

/-- A host parser that rejects every string. -/
def parseAlwaysFails : String → Except String Json := fun _ => .error "SyntaxError"

/-! Theorems. -/

/-- The selection of app.js lines 96 to 98 agrees with the selection rule as
the claim words it. -/
theorem chooseList_eq_claimChoice (b : LeagueBucket) : chooseList b = claimChoice b := by
  cases b with
  | missing => rfl
  | nonObject => rfl
  | obj l u =>
    cases l with
    | absent => cases u <;> rfl
    | nonArray => cases u <;> rfl
    | arr xs =>
      cases xs with
      | nil => cases u <;> rfl
      | cons x xs => rfl

/-- C1: for every feed body and fixed league id, the merger installs exactly
the list the claim describes: the live array when it is a non-empty array,
otherwise the upcoming array when present, otherwise the empty list; the
chosen records are normalized and league-stamped by map, so insertion order
is preserved, and a non-empty live array wins whatever upcoming holds. -/
theorem merger_selects_per_claim (env : DateEnv) (d : Option FeedLeagues) (k : LeagueId) :
    (mergeScores env d).get k = (claimChoice (leaguesGet d k)).map (normalizeFor env k) := by
  cases k <;> simp [mergeScores, Snapshot.get, chooseList_eq_claimChoice]

/-- C2: a poll cycle whose fetch raises (transport failure, non-2xx status,
or a body that fails to parse) leaves the whole state exactly as before, so
the snapshot is untouched and no render happens; a successful fetch installs
the merged snapshot and invokes render exactly once. -/
theorem poll_failure_frame (env : DateEnv) (o : FetchOutcome) (st : AppState) :
    (∀ msg, o = .transportError msg → pollOnce env o st = st) ∧
    (∀ status body, o = .response status body → resOk status = false → pollOnce env o st = st) ∧
    (∀ status msg, o = .response status (.error msg) → pollOnce env o st = st) ∧
    (∀ status d, o = .response status (.ok d) → resOk status = true →
      (pollOnce env o st).liveData = mergeScores env d ∧
      (pollOnce env o st).renderCount = st.renderCount + 1) := by
  refine ⟨?_, ?_, ?_, ?_⟩
  · intro msg h; subst h; rfl
  · intro status body h hok; subst h
    simp [pollOnce, fetchScores, hok]
  · intro status msg h; subst h
    cases hok : resOk status <;> simp [pollOnce, fetchScores, hok]
  · intro status d h hok; subst h
    simp [pollOnce, fetchScores, hok, render]

/-- Witness for C2 at concrete outcomes: a transport failure leaves the base
state untouched, and a 200 response renders once. -/
theorem poll_failure_frame_witness :
    pollOnce dEnvNone (.transportError "boom") baseState = baseState ∧
    (pollOnce dEnvNone (.response 200 (.ok none)) baseState).renderCount = 1 := by
  constructor
  · exact (poll_failure_frame dEnvNone (.transportError "boom") baseState).1 "boom" rfl
  · have h := ((poll_failure_frame dEnvNone (.response 200 (.ok none)) baseState).2.2.2
      200 none rfl (by decide)).2
    rw [h]; rfl

/-- Repainting the pinned window from unchanged inputs writes the content it
already has. -/
theorem pipContent_idem (s : Snapshot) (F : List String) (o : Bool) (p : String) :
    pipContent s F o (pipContent s F o p) = pipContent s F o p := by
  cases o with
  | false => simp [pipContent]
  | true =>
    by_cases he : (resolveFollowed s F).isEmpty
    · simp [pipContent, he]
    · cases hm : pipRows (resolveFollowed s F) <;> simp [pipContent, he, hm]

/-- C3: the renderer is idempotent: a second render with unchanged inputs
repaints byte-identical surfaces, primary and pinned alike, and a render
never changes its own inputs (snapshot, followed cell, filter cell, window
flag). -/
theorem render_idempotent (st : AppState) :
    (render (render st)).dom = (render st).dom ∧
    (render st).liveData = st.liveData ∧
    (render st).followedCell = st.followedCell ∧
    (render st).filterCell = st.filterCell ∧
    (render st).pipOpen = st.pipOpen := by
  refine ⟨?_, rfl, rfl, rfl, rfl⟩
  simp [render, pipContent_idem]

/-- C4 fails on the code: a present but unparseable kickoff timestamp makes
toLocaleTimeString return the text Invalid Date, so the kickoff text is not
empty and the upcoming meta reads KO Invalid Date. -/
theorem kickoff_unparseable_counterexample :
    dEnvNone.parse "not-a-date" = none ∧
    (toMatchModel dEnvNone badKickoffRec).status = .UPCOMING ∧
    (toMatchModel dEnvNone badKickoffRec).kickoff = "Invalid Date" ∧
    (toMatchModel dEnvNone badKickoffRec).minute = "KO Invalid Date" ∧
    ("Invalid Date" : String) ≠ "" := by
  refine ⟨rfl, rfl, rfl, by decide, by decide⟩

/-- C4 amended: for an upcoming record the kickoff text is the
locale-formatted parse result when the timestamp parses, the empty string
exactly when the timestamp is absent or empty, and the host text Invalid
Date when a non-empty timestamp does not parse; the displayed meta prefixes
KO exactly when the kickoff text is non-empty.  Normalization is total, so
it never fails on a bad timestamp. -/
theorem kickoff_amended (env : DateEnv) (f : RawMatch) (hl : f.isLive = false) :
    ((f.kickoffISO = none ∨ f.kickoffISO = some "") →
      (toMatchModel env f).kickoff = "" ∧ (toMatchModel env f).minute = "") ∧
    (∀ s, f.kickoffISO = some s → s ≠ "" → env.parse s = none →
      (toMatchModel env f).kickoff = "Invalid Date") ∧
    (∀ s t, f.kickoffISO = some s → s ≠ "" → env.parse s = some t →
      (toMatchModel env f).kickoff = env.fmt t) ∧
    (toMatchModel env f).minute =
      (if (toMatchModel env f).kickoff = "" then ""
       else "KO " ++ (toMatchModel env f).kickoff) := by
  refine ⟨?_, ?_, ?_, ?_⟩
  · rintro (h | h) <;> simp [toMatchModel, hl, isoToLocalKickoff, h]
  · intro s hs hne hp
    simp [toMatchModel, isoToLocalKickoff, hs, hne, hp]
  · intro s t hs hne hp
    simp [toMatchModel, isoToLocalKickoff, hs, hne, hp]
  · simp [toMatchModel, hl]

/-- Witness for the amended C4: under dEnvK the record with timestamp k
formats as 19:30. -/
theorem kickoff_amended_witness :
    (toMatchModel dEnvK goodKickoffRec).kickoff = "19:30" := by
  have h := (kickoff_amended dEnvK goodKickoffRec rfl).2.2.1 "k" 0 rfl (by decide) rfl
  exact h

/-- C5 fails on the code: a persisted non-empty invalid filter value loads
verbatim, not as all, and the renderer then shows no league section at all
instead of all of them. -/
theorem filter_invalid_counterexample :
    loadLeagueFilter (some "xyz") = "xyz" ∧
    ("xyz" : String) ≠ "all" ∧
    leaguesToShow "xyz" = [] := by
  refine ⟨rfl, by decide, by decide⟩

/-- C5 amended: an unset or empty persisted filter loads as all, and the
filter all shows every fixed league in fixed order; any non-empty persisted
value loads verbatim, and a non-empty value that is neither a league id nor
all yields zero league sections. -/
theorem filter_default_amended :
    loadLeagueFilter none = "all" ∧
    loadLeagueFilter (some "") = "all" ∧
    (∀ s : String, s ≠ "" → loadLeagueFilter (some s) = s) ∧
    leaguesToShow "all" = LEAGUES ∧
    (∀ s : String, s ≠ "all" → (∀ k : LeagueId, leagueIdStr k ≠ s) →
      leaguesToShow s = []) := by
  refine ⟨rfl, rfl, ?_, rfl, ?_⟩
  · intro s hs; simp [loadLeagueFilter, hs]
  · intro s hall hid
    simp [leaguesToShow, hall, LEAGUES, hid .pl, hid .ch, hid .l1, hid .l2]

/-- Witness for the amended C5 at the invalid value zzz. -/
theorem filter_default_amended_witness :
    loadLeagueFilter (some "zzz") = "zzz" ∧ leaguesToShow "zzz" = [] := by
  refine ⟨filter_default_amended.2.2.1 "zzz" (by decide),
    filter_default_amended.2.2.2.2 "zzz" (by decide) ?_⟩
  intro k; cases k <;> decide

/-- C6: a missing or malformed league bucket merges to the empty list for
that league, while every other league still receives its own chosen list;
the snapshot is never aborted. -/
theorem merger_degrades_malformed (env : DateEnv) (d : Option FeedLeagues) (k : LeagueId)
    (h : malformedBucket (leaguesGet d k) = true) :
    (mergeScores env d).get k = [] ∧
    (∀ j, j ≠ k → (mergeScores env d).get j =
      (chooseList (leaguesGet d j)).map (normalizeFor env j)) := by
  constructor
  · have hsel : chooseList (leaguesGet d k) = [] := by
      cases hb : leaguesGet d k with
      | missing => rfl
      | nonObject => rfl
      | obj l u =>
        rw [hb] at h
        cases l <;> cases u <;>
          simp_all [malformedBucket, isArrayField, chooseList, bucketLive, bucketUpcoming,
            isNonEmptyArray]
    have hget : (mergeScores env d).get k = (chooseList (leaguesGet d k)).map (normalizeFor env k) := by
      cases k <;> rfl
    rw [hget, hsel]; rfl
  · intro j _; cases j <;> rfl

/-- Witness for C6: in feedMixed the pl bucket is a truthy non-object and
merges to the empty list, while ch still merges its own upcoming list. -/
theorem merger_degrades_malformed_witness :
    (mergeScores dEnvNone (some feedMixed)).get .pl = [] ∧
    (mergeScores dEnvNone (some feedMixed)).get .ch =
      (chooseList (leaguesGet (some feedMixed) .ch)).map (normalizeFor dEnvNone .ch) := by
  have h := merger_degrades_malformed dEnvNone (some feedMixed) .pl rfl
  exact ⟨h.1, h.2 .ch (by decide)⟩

/-- C7 fails on the code: following an id that is already followed and then
unfollowing it removes the id, so the persisted set is not restored. -/
theorem toggle_roundtrip_counterexample :
    ¬ sameElems
      ((toggleFollow "m1" false (toggleFollow "m1" true followedM1State)).followedCell)
      followedM1State.followedCell := by
  intro hsame
  have hzero : (toggleFollow "m1" false (toggleFollow "m1" true followedM1State)).followedCell
      = [] := rfl
  have hmem : "m1" ∈ (toggleFollow "m1" false (toggleFollow "m1" true followedM1State)).followedCell :=
    (hsame "m1").2 (by decide)
  rw [hzero] at hmem
  exact (List.not_mem_nil "m1") hmem

/-- C7 amended: following an id that is not already followed and then
unfollowing it restores the persisted followed set exactly (in particular
as a set). -/
theorem toggle_roundtrip_amended (st : AppState) (id : String) (h : id ∉ st.followedCell) :
    sameElems ((toggleFollow id false (toggleFollow id true st)).followedCell)
      st.followedCell := by
  have h1 : (toggleFollow id true st).followedCell = st.followedCell ++ [id] := by
    simp [toggleFollow, render, jsSetAdd, h]
  have h2 : (toggleFollow id false (toggleFollow id true st)).followedCell
      = ((toggleFollow id true st).followedCell).filter (fun y => decide (y ≠ id)) := rfl
  have h3 : st.followedCell.filter (fun y => decide (y ≠ id)) = st.followedCell :=
    List.filter_eq_self.mpr (fun a ha => decide_eq_true (fun he => h (he ▸ ha)))
  have h4 : ([id].filter (fun y => decide (y ≠ id))) = ([] : List String) := by simp
  rw [h2, h1, List.filter_append, h3, h4, List.append_nil]
  exact fun x => Iff.rfl

/-- Witness for the amended C7 at the base state and a fresh id. -/
theorem toggle_roundtrip_amended_witness :
    sameElems ((toggleFollow "a" false (toggleFollow "a" true baseState)).followedCell)
      baseState.followedCell :=
  toggle_roundtrip_amended baseState "a" (by decide)

/-- An id that resolves to no match contributes nothing to the followed
resolution. -/
theorem resolveFollowed_filter_none (s : Snapshot) (x : String) (F : List String)
    (h : findMatchById s x = none) :
    resolveFollowed s (F.filter (fun y => decide (y ≠ x))) = resolveFollowed s F := by
  induction F with
  | nil => rfl
  | cons a F ih =>
    simp only [resolveFollowed] at *
    by_cases hax : a = x
    · rw [hax]
      rw [show (x :: F).filter (fun y => decide (y ≠ x)) = F.filter (fun y => decide (y ≠ x)) from
            by simp,
          List.map_cons, h, List.reduceOption_cons_of_none]
      exact ih
    · rw [show (a :: F).filter (fun y => decide (y ≠ x)) = a :: F.filter (fun y => decide (y ≠ x))
            from by simp [hax],
          List.map_cons, List.map_cons]
      cases hfa : findMatchById s a with
      | none =>
        rw [List.reduceOption_cons_of_none, List.reduceOption_cons_of_none]
        exact ih
      | some m =>
        rw [List.reduceOption_cons_of_some, List.reduceOption_cons_of_some, ih]

/-- C8: a followed id with no match in the current snapshot produces no
entry on either followed surface: both surfaces render exactly as they
would without that id (so no placeholder and no error), and the render
leaves the persisted followed cell unchanged. -/
theorem unresolved_followed_id_invisible (st : AppState) (x : String)
    (h : findMatchById st.liveData x = none) :
    (render st).dom.followedHTML =
      (render { st with
        followedCell := st.followedCell.filter (fun y => decide (y ≠ x)) }).dom.followedHTML ∧
    (render st).dom.pipList =
      (render { st with
        followedCell := st.followedCell.filter (fun y => decide (y ≠ x)) }).dom.pipList ∧
    (render st).followedCell = st.followedCell := by
  have hr := resolveFollowed_filter_none st.liveData x st.followedCell h
  refine ⟨?_, ?_, rfl⟩
  · show renderFollowedHTML st.liveData st.followedCell =
      renderFollowedHTML st.liveData (st.followedCell.filter (fun y => decide (y ≠ x)))
    unfold renderFollowedHTML
    rw [hr]
  · show pipContent st.liveData st.followedCell st.pipOpen st.dom.pipList =
      pipContent st.liveData (st.followedCell.filter (fun y => decide (y ≠ x))) st.pipOpen
        st.dom.pipList
    unfold pipContent
    rw [hr]

/-- Witness for C8: with m9 followed and an empty snapshot, the followed
surface renders as if m9 were not stored, and m9 stays in the cell. -/
theorem unresolved_followed_id_invisible_witness :
    (render followedM9State).dom.followedHTML =
      (render { followedM9State with
        followedCell := followedM9State.followedCell.filter (fun y => decide (y ≠ "m9")) }).dom.followedHTML ∧
    (render followedM9State).followedCell = ["m9"] := by
  have h := unresolved_followed_id_invisible followedM9State "m9" rfl
  exact ⟨h.1, h.2.2⟩

/-- C9: loading the followed set from an absent, empty, or unparseable
stored value yields the empty set, whatever the host JSON parser does on
other strings; the loader is a total function, so it never raises. -/
theorem load_followed_corrupt (parse : String → Except String Json) (raw : Option String)
    (h : raw = none ∨ raw = some "" ∨ ∃ s msg, raw = some s ∧ parse s = .error msg) :
    loadFollowedSet parse raw = [] := by
  rcases h with h | h | ⟨s, msg, hs, hp⟩
  · subst h; rfl
  · subst h; rfl
  · subst hs
    by_cases hse : s = "" <;> simp [loadFollowedSet, hse, hp]

/-- Witness for C9: a parser that throws on the stored text yields the empty
set. -/
theorem load_followed_corrupt_witness :
    loadFollowedSet parseAlwaysFails (some "not json") = [] :=
  load_followed_corrupt parseAlwaysFails (some "not json")
    (Or.inr (Or.inr ⟨"not json", "SyntaxError", rfl, rfl⟩))

/-- C10: the follow mutation on an already-followed id and the unfollow
mutation on an unfollowed id both leave the persisted followed cell exactly
unchanged. -/
theorem toggle_idempotent (st : AppState) (i j : String)
    (hi : i ∈ st.followedCell) (hj : j ∉ st.followedCell) :
    (toggleFollow i true st).followedCell = st.followedCell ∧
    (toggleFollow j false st).followedCell = st.followedCell := by
  constructor
  · simp [toggleFollow, render, jsSetAdd, hi]
  · show st.followedCell.filter (fun y => decide (y ≠ j)) = st.followedCell
    exact List.filter_eq_self.mpr (fun a ha => decide_eq_true (fun he => hj (he ▸ ha)))

/-- Witness for C10: adding the stored id m9 and deleting the absent id zz
both leave the cell at m9 alone. -/
theorem toggle_idempotent_witness :
    (toggleFollow "m9" true followedM9State).followedCell = ["m9"] ∧
    (toggleFollow "zz" false followedM9State).followedCell = ["m9"] := by
  have h := toggle_idempotent followedM9State "m9" "zz" (by decide) (by decide)
  exact ⟨h.1, h.2⟩

end SideScore
